import Mathlib

/-!
Shallow embedding of the resource-discovery and tier-classification engine of
`dashboard.py` (terraform-3tier): the functions `run_aws_command`, `get_vpcs`,
`get_subnets`, `get_instances`, `get_security_groups`,
`get_internet_gateways`, and the snapshot assembly at the top of
`generate_html`.

Modelling conventions:
* A JSON tag object `{"Key": k, "Value": v}` is a `Tag`.
* For each resource kind the only field of the parsed response document that
  the code reads is one list (e.g. `data.get("Vpcs", [])`), so a parsed
  document is modelled by that list.  The Python truthiness test
  `if not data:` succeeds exactly on `None` (query failure) and on the empty
  dict `{}` (empty response body); both are distinct from a truthy document,
  so the adapter result is a three-valued `AwsData`.
* A dict access with default, such as `subnet.get("AvailabilityZone", "")`,
  is modelled as a plain `String` field whose value is `""` when the key is
  missing; `instance.get("VpcId")` (no default) is an `Option String`.
* Python `str.lower()` is modelled on its ASCII fragment (`lowerStr`), and
  `pat in s` by the executable substring test `strHasSub`.
* Machine integers: ports are `Int`; Python `if port:` on an int is
  `port ≠ 0` (and is false on `None`).
-/

namespace Dashboard

/-- A resource tag: one element of a record's `Tags` list. -/
structure Tag where
  key : String
  value : String
deriving DecidableEq

/-- ASCII lower-casing of one character (the fragment of `str.lower()`
exercised by the classifier's ASCII pattern constants). -/
def lowerChar (c : Char) : Char :=
  if 'A' ≤ c ∧ c ≤ 'Z' then Char.ofNat (c.toNat + 32) else c

/-- ASCII lower-casing of a string, modelling `name.lower()`. -/
def lowerStr (s : String) : String :=
  ⟨s.data.map lowerChar⟩

/-- Does `p` occur as a contiguous sublist of `l`? -/
def hasSubAux (p : List Char) : List Char → Bool
  | [] => p.isEmpty
  | c :: cs => p.isPrefixOf (c :: cs) || hasSubAux p cs

/-- `strHasSub s p` models the Python membership test `p in s` on strings. -/
def strHasSub (s p : String) : Bool :=
  hasSubAux p.data s.data

/-- The tag-scanning loops (`for tag in .get("Tags", []): if tag["Key"] == k:
x = tag["Value"]`): start from the default `d`, overwrite on every tag whose
key is `k`, so the last matching tag wins. -/
def resolveTag (tags : List Tag) (k : String) (d : String) : String :=
  tags.foldl (fun acc t => if t.key = k then t.value else acc) d

/-- The guard `if vpc_ids and v not in vpc_ids: continue`: a record is kept
iff `vpc_ids` is falsy (`None` or the empty list) or its VPC id is a member.
`v = none` models a record with no `VpcId` key (`instance.get("VpcId")` is
`None`, which is never a member of a list of id strings). -/
def scopeKeeps (scope : Option (List String)) (v : Option String) : Bool :=
  match scope with
  | none => true
  | some ids =>
    ids.isEmpty ||
      (match v with
       | some s => ids.contains s
       | none => false)

/-- Outcome of one `aws ... describe-*` subprocess invocation, the cases
distinguished by `run_aws_command`. -/
inductive QueryOutcome (α : Type) where
  /-- `subprocess.run` raised `TimeoutExpired` (15-second timeout). -/
  | timeout : QueryOutcome α
  /-- `subprocess.run` raised any other exception (transport failure). -/
  | transportFault : QueryOutcome α
  /-- The CLI exited with a non-zero `returncode` (provider error).  The
  code is recorded; `run_aws_command` reaches this branch only when it is
  non-zero. -/
  | providerErr (code : Int) : QueryOutcome α
  /-- Zero `returncode` but `json.loads` raised on a malformed body. -/
  | malformedBody : QueryOutcome α
  /-- Zero `returncode` with empty stdout: the code returns `{}`. -/
  | emptyBody : QueryOutcome α
  /-- Zero `returncode`, well-formed body; `body` is the resource list the
  caller extracts from the parsed document (`data.get(Key, [])`). -/
  | ok (body : α) : QueryOutcome α
deriving DecidableEq

/-- What a `get_*` function sees after calling `run_aws_command`: `None`
(falsy), the empty dict `{}` (also falsy), or a truthy parsed document. -/
inductive AwsData (α : Type) where
  | unavailable : AwsData α
  | emptyDoc : AwsData α
  | doc (body : α) : AwsData α
deriving DecidableEq

/-- `run_aws_command`: returns the parsed JSON on success (`{}` when stdout
is empty), and `None` on a non-zero exit code or any exception — the
timeout, a transport fault, and a `json.loads` failure are all caught by the
bare `except Exception: return None`. -/
def run_aws_command {α : Type} : QueryOutcome α → AwsData α
  | .timeout => .unavailable
  | .transportFault => .unavailable
  | .providerErr _ => .unavailable
  | .malformedBody => .unavailable
  | .emptyBody => .emptyDoc
  | .ok body => .doc body

/-- A raw VPC record from `describe-vpcs` (fields the code reads). -/
structure VpcRec where
  vpcId : String
  cidrBlock : String
  isDefault : Bool
  tags : List Tag
deriving DecidableEq

/-- An entry of the list `get_vpcs` returns. -/
structure VpcOut where
  id : String
  cidr : String
  name : String
deriving DecidableEq

/-- Loop body of `get_vpcs`: skip default VPCs, resolve the `Name` tag,
append only when the name is non-empty (`if name:`). -/
def vpcStep (acc : List VpcOut) (vpc : VpcRec) : List VpcOut :=
  if vpc.isDefault then acc
  else
    let name := resolveTag vpc.tags "Name" ""
    if name = "" then acc
    else acc ++ [⟨vpc.vpcId, vpc.cidrBlock, name⟩]

/-- `get_vpcs`: `if not data: return []`, else fold the loop body over
`data.get("Vpcs", [])`. -/
def get_vpcs (o : QueryOutcome (List VpcRec)) : List VpcOut :=
  match run_aws_command o with
  | .doc vpcs => vpcs.foldl vpcStep []
  | _ => []

/-- A raw subnet record from `describe-subnets` (fields the code reads). -/
structure SubnetRec where
  subnetId : String
  vpcId : String
  cidrBlock : String
  availabilityZone : String
  tags : List Tag
deriving DecidableEq

/-- An entry of a subnet tier bucket. -/
structure SubnetOut where
  id : String
  cidr : String
  az : String
  name : String
deriving DecidableEq

/-- The dict `{"public": [...], "app": [...], "database": [...]}` built by
`get_subnets`. -/
structure SubnetBuckets where
  public : List SubnetOut
  app : List SubnetOut
  database : List SubnetOut
deriving DecidableEq

/-- The resolved display name of a subnet (`Name` tag, `""` default). -/
def subnetName (s : SubnetRec) : String :=
  resolveTag s.tags "Name" ""

/-- The tier computed for a subnet: the `Tier` tag (default `"app"`), then
the name heuristics `if "public" in name.lower(): tier = "public"
elif "db" in name.lower() or "database" in name.lower(): tier = "database"`. -/
def subnetTier (s : SubnetRec) : String :=
  let name := subnetName s
  let tier := resolveTag s.tags "Tier" "app"
  if strHasSub (lowerStr name) "public" then "public"
  else if strHasSub (lowerStr name) "db" || strHasSub (lowerStr name) "database" then
    "database"
  else tier

/-- The record appended to a subnet bucket. -/
def mkSubnetOut (s : SubnetRec) : SubnetOut :=
  ⟨s.subnetId, s.cidrBlock, s.availabilityZone, subnetName s⟩

/-- Loop body of `get_subnets`: scope check, drop unnamed subnets
(`if not name: continue`), then `if tier in subnets: subnets[tier].append`. -/
def subnetStep (scope : Option (List String)) (b : SubnetBuckets) (s : SubnetRec) :
    SubnetBuckets :=
  if !(scopeKeeps scope (some s.vpcId)) then b
  else if subnetName s = "" then b
  else
    let t := subnetTier s
    if t = "public" then { b with public := b.public ++ [mkSubnetOut s] }
    else if t = "app" then { b with app := b.app ++ [mkSubnetOut s] }
    else if t = "database" then { b with database := b.database ++ [mkSubnetOut s] }
    else b

/-- `get_subnets(vpc_ids)`: empty buckets when the document is falsy, else
fold the loop body over `data.get("Subnets", [])`. -/
def get_subnets (scope : Option (List String)) (o : QueryOutcome (List SubnetRec)) :
    SubnetBuckets :=
  match run_aws_command o with
  | .doc subs => subs.foldl (subnetStep scope) ⟨[], [], []⟩
  | _ => ⟨[], [], []⟩

/-- A raw instance record from `describe-instances` (fields the code reads).
`stateName` models `instance.get("State", {}).get("Name", ...)`: `none` when
either key is missing. -/
structure InstRec where
  instanceId : String
  instanceType : String
  stateName : Option String
  privateIp : String
  vpcId : Option String
  tags : List Tag
deriving DecidableEq

/-- One reservation of `data.get("Reservations", [])`; the code reads only
`reservation.get("Instances", [])`. -/
structure ReservationRec where
  instances : List InstRec
deriving DecidableEq

/-- An entry of an instance tier bucket. -/
structure InstOut where
  id : String
  type : String
  state : String
  private_ip : String
  name : String
deriving DecidableEq

/-- The dict `{"web": [...], "app": [...]}` built by `get_instances`. -/
structure InstBuckets where
  web : List InstOut
  app : List InstOut
deriving DecidableEq

/-- The resolved display name of an instance (`Name` tag, `""` default). -/
def instName (i : InstRec) : String :=
  resolveTag i.tags "Name" ""

/-- The tier computed for an instance: the `Tier` tag (default `"web"`),
then `if "app" in name.lower(): tier = "app"`. -/
def instTier (i : InstRec) : String :=
  let tier := resolveTag i.tags "Tier" "web"
  if strHasSub (lowerStr (instName i)) "app" then "app" else tier

/-- The record appended to an instance bucket; the display name is
`name or "(unnamed)"` and the state degrades to `"unknown"`. -/
def mkInstOut (i : InstRec) : InstOut :=
  ⟨i.instanceId, i.instanceType,
   (match i.stateName with | some s => s | none => "unknown"),
   i.privateIp,
   (if instName i = "" then "(unnamed)" else instName i)⟩

/-- Inner loop body of `get_instances`: scope check (on
`instance.get("VpcId")`), then `if tier in instances:
instances[tier].append`. -/
def instStep (scope : Option (List String)) (b : InstBuckets) (i : InstRec) :
    InstBuckets :=
  if !(scopeKeeps scope i.vpcId) then b
  else
    let t := instTier i
    if t = "web" then { b with web := b.web ++ [mkInstOut i] }
    else if t = "app" then { b with app := b.app ++ [mkInstOut i] }
    else b

/-- `get_instances(vpc_ids)`: the nested loop over reservations and their
instances. -/
def get_instances (scope : Option (List String))
    (o : QueryOutcome (List ReservationRec)) : InstBuckets :=
  match run_aws_command o with
  | .doc rs => rs.foldl (fun b res => res.instances.foldl (instStep scope) b) ⟨[], []⟩
  | _ => ⟨[], []⟩

/-- One inbound rule of a security group; the code reads only
`rule.get("FromPort")`. -/
structure RuleRec where
  fromPort : Option Int
deriving DecidableEq

/-- A raw security-group record from `describe-security-groups`. -/
structure SGRec where
  groupId : String
  groupName : Option String
  vpcId : Option String
  ipPermissions : List RuleRec
deriving DecidableEq

/-- An entry of the list `get_security_groups` returns. -/
structure SGOut where
  id : String
  name : String
  ports : List String
deriving DecidableEq

/-- The port list of a group: `port = rule.get("FromPort"); if port:
ports.append(str(port))` — `if port:` is false on a missing key and on 0. -/
def sgPorts (rules : List RuleRec) : List String :=
  rules.foldl
    (fun acc r =>
      match r.fromPort with
      | some p => if p = 0 then acc else acc ++ [toString p]
      | none => acc)
    []

/-- Loop body of `get_security_groups`: scope check, skip groups whose
`GroupName` is exactly `"default"`, then append with name
`sg.get("GroupName", "")`. -/
def sgStep (scope : Option (List String)) (acc : List SGOut) (sg : SGRec) :
    List SGOut :=
  if !(scopeKeeps scope sg.vpcId) then acc
  else if sg.groupName = some "default" then acc
  else
    acc ++ [⟨sg.groupId,
             (match sg.groupName with | some n => n | none => ""),
             sgPorts sg.ipPermissions⟩]

/-- `get_security_groups(vpc_ids)`. -/
def get_security_groups (scope : Option (List String))
    (o : QueryOutcome (List SGRec)) : List SGOut :=
  match run_aws_command o with
  | .doc l => l.foldl (sgStep scope) []
  | _ => []

/-- One element of a gateway's `Attachments` list; `vpcId` models
`att.get("VpcId", "")`, so a missing key is `""`. -/
structure AttachmentRec where
  vpcId : String
deriving DecidableEq

/-- A raw internet-gateway record from `describe-internet-gateways`. -/
structure IgwRec where
  internetGatewayId : String
  attachments : List AttachmentRec
  tags : List Tag
deriving DecidableEq

/-- An entry of the list `get_internet_gateways` returns. -/
structure IgwOut where
  id : String
  name : String
deriving DecidableEq

/-- The owning VPC of a gateway: `for att in attachments: vpc_id =
att.get("VpcId", "")` — unconditional overwrite, the last attachment wins,
`""` when there is none. -/
def igwVpc (g : IgwRec) : String :=
  g.attachments.foldl (fun _ a => a.vpcId) ""

/-- Loop body of `get_internet_gateways`: resolve the owning VPC, scope
check on it, resolve the `Name` tag, append when `if name or vpc_id:`. -/
def igwStep (scope : Option (List String)) (acc : List IgwOut) (g : IgwRec) :
    List IgwOut :=
  let v := igwVpc g
  if !(scopeKeeps scope (some v)) then acc
  else
    let name := resolveTag g.tags "Name" ""
    if name ≠ "" || v ≠ "" then acc ++ [⟨g.internetGatewayId, name⟩]
    else acc

/-- `get_internet_gateways(vpc_ids)`. -/
def get_internet_gateways (scope : Option (List String))
    (o : QueryOutcome (List IgwRec)) : List IgwOut :=
  match run_aws_command o with
  | .doc l => l.foldl (igwStep scope) []
  | _ => []

/-- The scope value `generate_html` passes to every other query:
`vpc_ids = [v["id"] for v in vpcs] if vpcs else None`. -/
def scopeOf (vpcs : List VpcOut) : Option (List String) :=
  if vpcs.isEmpty then none else some (vpcs.map (fun v => v.id))

/-- The data `generate_html` assembles before rendering: the five resource
collections plus the two derived totals. -/
structure Snapshot where
  vpcs : List VpcOut
  subnets : SubnetBuckets
  instances : InstBuckets
  security_groups : List SGOut
  igws : List IgwOut
  total_subnets : Nat
  total_instances : Nat
deriving DecidableEq

/-- The data-gathering half of `generate_html`: compute the VPC list, derive
the scope, run the remaining four queries under it, and take the totals. -/
def buildSnapshot (vo : QueryOutcome (List VpcRec))
    (so : QueryOutcome (List SubnetRec)) (io : QueryOutcome (List ReservationRec))
    (go : QueryOutcome (List SGRec)) (wo : QueryOutcome (List IgwRec)) : Snapshot :=
  let vpcs := get_vpcs vo
  let vpc_ids := scopeOf vpcs
  let subnets := get_subnets vpc_ids so
  let instances := get_instances vpc_ids io
  let security_groups := get_security_groups vpc_ids go
  let igws := get_internet_gateways vpc_ids wo
  { vpcs := vpcs
    subnets := subnets
    instances := instances
    security_groups := security_groups
    igws := igws
    total_subnets :=
      subnets.public.length + subnets.app.length + subnets.database.length
    total_instances := instances.web.length + instances.app.length }

/-- The per-record decision `get_vpcs` makes, as a selector: `none` when the
record is skipped, `some` the appended entry otherwise. -/
def vpcSel (vpc : VpcRec) : Option VpcOut :=
  if vpc.isDefault then none
  else if resolveTag vpc.tags "Name" "" = "" then none
  else some ⟨vpc.vpcId, vpc.cidrBlock, resolveTag vpc.tags "Name" ""⟩

/-- The per-record decision `get_subnets` makes for the bucket `t`. -/
def subnetSel (scope : Option (List String)) (t : String) (s : SubnetRec) :
    Option SubnetOut :=
  if !(scopeKeeps scope (some s.vpcId)) then none
  else if subnetName s = "" then none
  else if subnetTier s = t then some (mkSubnetOut s)
  else none

/-- The per-record decision `get_instances` makes for the bucket `t`. -/
def instSel (scope : Option (List String)) (t : String) (i : InstRec) :
    Option InstOut :=
  if !(scopeKeeps scope i.vpcId) then none
  else if instTier i = t then some (mkInstOut i)
  else none

/-- The per-record decision `get_security_groups` makes. -/
def sgSel (scope : Option (List String)) (sg : SGRec) : Option SGOut :=
  if !(scopeKeeps scope sg.vpcId) then none
  else if sg.groupName = some "default" then none
  else
    some ⟨sg.groupId,
          (match sg.groupName with | some n => n | none => ""),
          sgPorts sg.ipPermissions⟩

/-- The per-record decision `get_internet_gateways` makes. -/
def igwSel (scope : Option (List String)) (g : IgwRec) : Option IgwOut :=
  if !(scopeKeeps scope (some (igwVpc g))) then none
  else if resolveTag g.tags "Name" "" ≠ "" || igwVpc g ≠ "" then
    some ⟨g.internetGatewayId, resolveTag g.tags "Name" ""⟩
  else none

/-- The failure cases of the spec's taxonomy for one describe call: a
timeout, a transport fault, a non-zero provider exit code, or a malformed
response body.  (An empty body and a well-formed body are the non-failure
outcomes.) -/
def isFailure {α : Type} (o : QueryOutcome α) : Prop :=
  o = .timeout ∨ o = .transportFault ∨
    (∃ c : Int, c ≠ 0 ∧ o = .providerErr c) ∨ o = .malformedBody

theorem run_aws_command_fail {α : Type} (o : QueryOutcome α)
    (h : isFailure o) : run_aws_command o = .unavailable := by
  rcases h with h | h | ⟨c, _, h⟩ | h <;> subst h <;> rfl

theorem resolveTag_default (tags : List Tag) (k d : String)
    (h : ∀ t ∈ tags, t.key ≠ k) : resolveTag tags k d = d := by
  unfold resolveTag
  induction tags with
  | nil => rfl
  | cons t ts ih =>
    rw [List.foldl_cons, if_neg (h t (by simp))]
    exact ih fun t' ht' => h t' (by simp [ht'])

theorem subnetSel_none_of_tier (scope : Option (List String)) (t : String)
    (s : SubnetRec) (h : subnetTier s ≠ t) : subnetSel scope t s = none := by
  unfold subnetSel
  split_ifs <;> simp_all

theorem instSel_none_of_tier (scope : Option (List String)) (t : String)
    (i : InstRec) (h : instTier i ≠ t) : instSel scope t i = none := by
  unfold instSel
  split_ifs <;> simp_all

theorem instSel_none_of_scope (scope : Option (List String)) (t : String)
    (i : InstRec) (h : scopeKeeps scope i.vpcId = false) :
    instSel scope t i = none := by
  unfold instSel
  simp [h]

theorem subnetSel_none_of_name (scope : Option (List String)) (t : String)
    (s : SubnetRec) (h : subnetName s = "") : subnetSel scope t s = none := by
  unfold subnetSel
  split_ifs <;> simp_all

theorem vpcs_fold_eq (l : List VpcRec) (acc : List VpcOut) :
    l.foldl vpcStep acc = acc ++ l.filterMap vpcSel := by
  induction l generalizing acc with
  | nil => simp
  | cons v l ih =>
    rw [List.foldl_cons, ih, List.filterMap_cons]
    by_cases h1 : v.isDefault
    · simp [vpcStep, vpcSel, h1]
    · by_cases h2 : resolveTag v.tags "Name" "" = "" <;>
        simp [vpcStep, vpcSel, h1, h2]

theorem get_vpcs_ok (l : List VpcRec) :
    get_vpcs (.ok l) = l.filterMap vpcSel := by
  simpa [get_vpcs, run_aws_command] using vpcs_fold_eq l []

theorem subnets_fold_eq (scope : Option (List String)) (l : List SubnetRec)
    (b : SubnetBuckets) :
    l.foldl (subnetStep scope) b =
      ⟨b.public ++ l.filterMap (subnetSel scope "public"),
       b.app ++ l.filterMap (subnetSel scope "app"),
       b.database ++ l.filterMap (subnetSel scope "database")⟩ := by
  induction l generalizing b with
  | nil => simp
  | cons s l ih =>
    rw [List.foldl_cons, ih]
    by_cases h1 : scopeKeeps scope (some s.vpcId)
    · by_cases h2 : subnetName s = ""
      · simp [subnetStep, subnetSel, h1, h2, List.filterMap_cons]
      · by_cases t1 : subnetTier s = "public"
        · simp [subnetStep, subnetSel, h1, h2, t1, List.filterMap_cons]
        · by_cases t2 : subnetTier s = "app"
          · simp [subnetStep, subnetSel, h1, h2, t1, t2, List.filterMap_cons]
          · by_cases t3 : subnetTier s = "database" <;>
              simp [subnetStep, subnetSel, h1, h2, t1, t2, t3, List.filterMap_cons]
    · simp [subnetStep, subnetSel, h1, List.filterMap_cons]

theorem get_subnets_ok (scope : Option (List String)) (l : List SubnetRec) :
    get_subnets scope (.ok l) =
      ⟨l.filterMap (subnetSel scope "public"),
       l.filterMap (subnetSel scope "app"),
       l.filterMap (subnetSel scope "database")⟩ := by
  simpa [get_subnets, run_aws_command] using subnets_fold_eq scope l ⟨[], [], []⟩

theorem insts_fold_eq (scope : Option (List String)) (l : List InstRec)
    (b : InstBuckets) :
    l.foldl (instStep scope) b =
      ⟨b.web ++ l.filterMap (instSel scope "web"),
       b.app ++ l.filterMap (instSel scope "app")⟩ := by
  induction l generalizing b with
  | nil => simp
  | cons i l ih =>
    rw [List.foldl_cons, ih]
    by_cases h1 : scopeKeeps scope i.vpcId
    · by_cases t1 : instTier i = "web"
      · simp [instStep, instSel, h1, t1, List.filterMap_cons]
      · by_cases t2 : instTier i = "app" <;>
          simp [instStep, instSel, h1, t1, t2, List.filterMap_cons]
    · simp [instStep, instSel, h1, List.filterMap_cons]

theorem insts_outer_fold_eq (scope : Option (List String))
    (rs : List ReservationRec) (b : InstBuckets) :
    rs.foldl (fun b res => res.instances.foldl (instStep scope) b) b =
      ⟨b.web ++ (rs.flatMap (fun r => r.instances)).filterMap (instSel scope "web"),
       b.app ++ (rs.flatMap (fun r => r.instances)).filterMap (instSel scope "app")⟩ := by
  induction rs generalizing b with
  | nil => simp
  | cons r rs ih =>
    rw [List.foldl_cons, ih, insts_fold_eq]
    simp [List.filterMap_append, List.append_assoc]

theorem get_instances_ok (scope : Option (List String)) (rs : List ReservationRec) :
    get_instances scope (.ok rs) =
      ⟨(rs.flatMap (fun r => r.instances)).filterMap (instSel scope "web"),
       (rs.flatMap (fun r => r.instances)).filterMap (instSel scope "app")⟩ := by
  simpa [get_instances, run_aws_command] using insts_outer_fold_eq scope rs ⟨[], []⟩

theorem sgs_fold_eq (scope : Option (List String)) (l : List SGRec)
    (acc : List SGOut) :
    l.foldl (sgStep scope) acc = acc ++ l.filterMap (sgSel scope) := by
  induction l generalizing acc with
  | nil => simp
  | cons sg l ih =>
    rw [List.foldl_cons, ih, List.filterMap_cons]
    by_cases h1 : scopeKeeps scope sg.vpcId
    · by_cases h2 : sg.groupName = some "default" <;>
        simp [sgStep, sgSel, h1, h2]
    · simp [sgStep, sgSel, h1]

theorem get_security_groups_ok (scope : Option (List String)) (l : List SGRec) :
    get_security_groups scope (.ok l) = l.filterMap (sgSel scope) := by
  simpa [get_security_groups, run_aws_command] using sgs_fold_eq scope l []

theorem igws_fold_eq (scope : Option (List String)) (l : List IgwRec)
    (acc : List IgwOut) :
    l.foldl (igwStep scope) acc = acc ++ l.filterMap (igwSel scope) := by
  induction l generalizing acc with
  | nil => simp
  | cons g l ih =>
    rw [List.foldl_cons, ih, List.filterMap_cons]
    by_cases h1 : scopeKeeps scope (some (igwVpc g))
    · by_cases h2 : resolveTag g.tags "Name" "" = ""
      · by_cases h3 : igwVpc g = "" <;> simp [igwStep, igwSel, h1, h2, h3]
      · simp [igwStep, igwSel, h1, h2]
    · simp [igwStep, igwSel, h1]

theorem get_internet_gateways_ok (scope : Option (List String)) (l : List IgwRec) :
    get_internet_gateways scope (.ok l) = l.filterMap (igwSel scope) := by
  simpa [get_internet_gateways, run_aws_command] using igws_fold_eq scope l []

theorem filterMap_filter_ne {α β : Type} [DecidableEq α] (f : α → Option β)
    (a : α) (hf : f a = none) (l : List α) :
    (l.filter (fun x => x ≠ a)).filterMap f = l.filterMap f := by
  induction l with
  | nil => rfl
  | cons x l ih =>
    simp only [ne_eq, decide_not] at ih ⊢
    by_cases hx : x = a
    · subst hx
      simp [List.filter_cons, hf, ih]
    · cases h : f x <;> simp [List.filter_cons, hx, ih, h, List.filterMap_cons]

theorem filterMap_flat_filter (f : InstRec → Option InstOut) (i : InstRec)
    (hf : f i = none) (rs : List ReservationRec) :
    ((rs.map (fun r => (⟨r.instances.filter (fun x => x ≠ i)⟩ : ReservationRec))).flatMap
        (fun r => r.instances)).filterMap f =
      (rs.flatMap (fun r => r.instances)).filterMap f := by
  induction rs with
  | nil => rfl
  | cons r rs ih =>
    simp only [List.map_cons, List.flatMap_cons, List.filterMap_append, ih]
    rw [filterMap_filter_ne f i hf]

theorem sgPorts_eq (rules : List RuleRec) :
    sgPorts rules =
      rules.filterMap
        (fun r =>
          match r.fromPort with
          | some p => if p = 0 then none else some (toString p)
          | none => none) := by
  unfold sgPorts
  suffices h : ∀ (acc : List String),
      rules.foldl
        (fun acc r =>
          match r.fromPort with
          | some p => if p = 0 then acc else acc ++ [toString p]
          | none => acc) acc =
      acc ++ rules.filterMap
        (fun r =>
          match r.fromPort with
          | some p => if p = 0 then none else some (toString p)
          | none => none) by
    simpa using h []
  induction rules with
  | nil => simp
  | cons r rules ih =>
    intro acc
    rw [List.foldl_cons, List.filterMap_cons]
    cases hp : r.fromPort with
    | none => simp only [hp]; rw [ih]
    | some p =>
      by_cases hz : p = 0
      · simp only [hp, hz, if_pos rfl]
        rw [ih]
        simp
      · simp only [hp, if_neg hz]
        rw [ih]
        simp

/-- Claim C1: for every subnet whose owning VPC is in scope (or scope is
unrestricted) and whose `Name` tag resolves, the assigned tier is the
ordered rule "explicit `Tier` tag if present, else `app`; then force
`public` when the display name contains case-insensitive `public`, else
force `database` when it contains `db` or `database`", and the subnet's
record lands in the bucket of that tier. -/
theorem subnet_tier_rule (scope : Option (List String)) (l : List SubnetRec)
    (s : SubnetRec) (hs : s ∈ l) (hk : scopeKeeps scope (some s.vpcId) = true)
    (hn : subnetName s ≠ "") :
    subnetTier s =
      (if strHasSub (lowerStr (subnetName s)) "public" then "public"
       else if strHasSub (lowerStr (subnetName s)) "db"
           || strHasSub (lowerStr (subnetName s)) "database" then "database"
       else resolveTag s.tags "Tier" "app") ∧
    (subnetTier s = "public" → mkSubnetOut s ∈ (get_subnets scope (.ok l)).public) ∧
    (subnetTier s = "app" → mkSubnetOut s ∈ (get_subnets scope (.ok l)).app) ∧
    (subnetTier s = "database" → mkSubnetOut s ∈ (get_subnets scope (.ok l)).database) := by
  refine ⟨rfl, ?_, ?_, ?_⟩ <;> intro ht <;>
    · rw [get_subnets_ok]
      exact List.mem_filterMap.mpr ⟨s, hs, by simp [subnetSel, hk, hn, ht]⟩

/-- Witness for C1: the subnet tagged `Tier=app` but named `db-subnet-1`
lands in the `database` bucket (under unrestricted scope). -/
theorem subnet_tier_rule_witness :
    mkSubnetOut ⟨"subnet-1", "vpc-x", "10.0.3.0/24", "us-east-1a",
        [⟨"Tier", "app"⟩, ⟨"Name", "db-subnet-1"⟩]⟩ ∈
      (get_subnets none
        (.ok [⟨"subnet-1", "vpc-x", "10.0.3.0/24", "us-east-1a",
          [⟨"Tier", "app"⟩, ⟨"Name", "db-subnet-1"⟩]⟩])).database :=
  (subnet_tier_rule none
      [⟨"subnet-1", "vpc-x", "10.0.3.0/24", "us-east-1a",
        [⟨"Tier", "app"⟩, ⟨"Name", "db-subnet-1"⟩]⟩]
      ⟨"subnet-1", "vpc-x", "10.0.3.0/24", "us-east-1a",
        [⟨"Tier", "app"⟩, ⟨"Name", "db-subnet-1"⟩]⟩
      (by decide) (by decide) (by decide)).2.2.2 (by decide)

/-- Counterexample to claim C2: a non-empty VPC inventory holding only the
default VPC produces an empty `get_vpcs` result, so the scope collapses to
the unrestricted sentinel and subnets still render — the snapshot below
renders a `database` entry instead of rendering nothing. -/
theorem scope_tristate_cex :
    get_vpcs (.ok [⟨"vpc-default", "172.31.0.0/16", true, [⟨"Name", "main"⟩]⟩]) = [] ∧
    (buildSnapshot
        (.ok [⟨"vpc-default", "172.31.0.0/16", true, [⟨"Name", "main"⟩]⟩])
        (.ok [⟨"subnet-1", "vpc-x", "10.0.3.0/24", "us-east-1a",
          [⟨"Tier", "app"⟩, ⟨"Name", "db-subnet-1"⟩]⟩])
        (.ok []) (.ok []) (.ok [])).subnets.database =
      [⟨"subnet-1", "10.0.3.0/24", "us-east-1a", "db-subnet-1"⟩] := by
  decide

/-- Claim C2 (amended): the scope is two-valued, not three-valued. Whenever
`get_vpcs` yields the empty list — inventory unavailable, empty, or holding
no non-default VPC with a resolvable `Name` tag — the scope is the
unrestricted sentinel `none` and nothing is filtered by VPC; a restricted
scope arises exactly when `get_vpcs` is non-empty, and its id set is then
non-empty.  An empty restricted set never occurs. -/
theorem scope_two_state (vo : QueryOutcome (List VpcRec)) :
    (get_vpcs vo = [] → scopeOf (get_vpcs vo) = none) ∧
    (get_vpcs vo ≠ [] →
      ∃ ids, scopeOf (get_vpcs vo) = some ids ∧ ids ≠ []) ∧
    (∀ v : Option String, scopeKeeps none v = true) := by
  refine ⟨?_, ?_, fun v => rfl⟩
  · intro h
    simp [scopeOf, h]
  · intro h
    refine ⟨(get_vpcs vo).map (fun v => v.id), ?_, ?_⟩
    · simp [scopeOf, h]
    · simpa using h

/-- Witness for the amended C2, at a default-only inventory (scope `none`)
and at an inventory with one named non-default VPC (non-empty scope). -/
theorem scope_two_state_witness :
    scopeOf (get_vpcs
        (.ok [⟨"vpc-default", "172.31.0.0/16", true, [⟨"Name", "main"⟩]⟩])) = none ∧
    (∃ ids, scopeOf (get_vpcs
        (.ok [⟨"vpc-1", "10.0.0.0/16", false, [⟨"Name", "main"⟩]⟩])) = some ids ∧
      ids ≠ []) :=
  ⟨(scope_two_state (.ok [⟨"vpc-default", "172.31.0.0/16", true,
      [⟨"Name", "main"⟩]⟩])).1 (by decide),
   (scope_two_state (.ok [⟨"vpc-1", "10.0.0.0/16", false,
      [⟨"Name", "main"⟩]⟩])).2.1 (by decide)⟩

/-- Claim C3: for every resource kind, a failing describe call (timeout,
transport fault, non-zero exit code, malformed body) yields the empty
result for that kind, and the snapshot still builds with every other kind
computed exactly as it would be on its own. -/
theorem query_failure_degrades :
    (∀ o : QueryOutcome (List VpcRec), isFailure o → get_vpcs o = []) ∧
    (∀ (scope : Option (List String)) (o : QueryOutcome (List SubnetRec)),
      isFailure o → get_subnets scope o = ⟨[], [], []⟩) ∧
    (∀ (scope : Option (List String)) (o : QueryOutcome (List ReservationRec)),
      isFailure o → get_instances scope o = ⟨[], []⟩) ∧
    (∀ (scope : Option (List String)) (o : QueryOutcome (List SGRec)),
      isFailure o → get_security_groups scope o = []) ∧
    (∀ (scope : Option (List String)) (o : QueryOutcome (List IgwRec)),
      isFailure o → get_internet_gateways scope o = []) ∧
    (∀ (go : QueryOutcome (List SGRec)) (vo : QueryOutcome (List VpcRec))
      (so : QueryOutcome (List SubnetRec)) (io : QueryOutcome (List ReservationRec))
      (wo : QueryOutcome (List IgwRec)), isFailure go →
      (buildSnapshot vo so io go wo).security_groups = [] ∧
      (buildSnapshot vo so io go wo).vpcs = get_vpcs vo ∧
      (buildSnapshot vo so io go wo).subnets =
        get_subnets (scopeOf (get_vpcs vo)) so ∧
      (buildSnapshot vo so io go wo).instances =
        get_instances (scopeOf (get_vpcs vo)) io ∧
      (buildSnapshot vo so io go wo).igws =
        get_internet_gateways (scopeOf (get_vpcs vo)) wo) := by
  refine ⟨?_, ?_, ?_, ?_, ?_, ?_⟩
  · intro o h
    simp [get_vpcs, run_aws_command_fail o h]
  · intro scope o h
    simp [get_subnets, run_aws_command_fail o h]
  · intro scope o h
    simp [get_instances, run_aws_command_fail o h]
  · intro scope o h
    simp [get_security_groups, run_aws_command_fail o h]
  · intro scope o h
    simp [get_internet_gateways, run_aws_command_fail o h]
  · intro go vo so io wo h
    refine ⟨?_, rfl, rfl, rfl, rfl⟩
    simp [buildSnapshot, get_security_groups, run_aws_command_fail go h]

/-- Witness for C3: a timed-out security-group call leaves that list empty,
both on its own and inside a snapshot whose other kinds carry data. -/
theorem query_failure_degrades_witness :
    get_security_groups none (QueryOutcome.timeout) = [] ∧
    (buildSnapshot (.ok [⟨"vpc-1", "10.0.0.0/16", false, [⟨"Name", "main"⟩]⟩])
        (.ok [⟨"subnet-1", "vpc-1", "10.0.1.0/24", "us-east-1a",
          [⟨"Name", "public-1"⟩]⟩])
        (.ok []) QueryOutcome.timeout (.ok [])).security_groups = [] :=
  ⟨query_failure_degrades.2.2.2.1 none .timeout (Or.inl rfl),
   (query_failure_degrades.2.2.2.2.2 .timeout
      (.ok [⟨"vpc-1", "10.0.0.0/16", false, [⟨"Name", "main"⟩]⟩])
      (.ok [⟨"subnet-1", "vpc-1", "10.0.1.0/24", "us-east-1a",
        [⟨"Name", "public-1"⟩]⟩])
      (.ok []) (.ok []) (Or.inl rfl)).1⟩

/-- Claim C4: an internet gateway passing the scope check is included in the
output exactly when it has a resolvable name or a resolvable owning-VPC
identifier; every output entry arises that way; and the owning VPC is the
last attachment seen. -/
theorem igw_inclusion_rule :
    (∀ (scope : Option (List String)) (l : List IgwRec) (g : IgwRec), g ∈ l →
      scopeKeeps scope (some (igwVpc g)) = true →
      (resolveTag g.tags "Name" "" ≠ "" ∨ igwVpc g ≠ "") →
      (⟨g.internetGatewayId, resolveTag g.tags "Name" ""⟩ : IgwOut) ∈
        get_internet_gateways scope (.ok l)) ∧
    (∀ (scope : Option (List String)) (l : List IgwRec) (r : IgwOut),
      r ∈ get_internet_gateways scope (.ok l) →
      ∃ g ∈ l, scopeKeeps scope (some (igwVpc g)) = true ∧
        (resolveTag g.tags "Name" "" ≠ "" ∨ igwVpc g ≠ "") ∧
        r = ⟨g.internetGatewayId, resolveTag g.tags "Name" ""⟩) ∧
    (∀ (id : String) (atts : List AttachmentRec) (a : AttachmentRec)
      (tags : List Tag), igwVpc ⟨id, atts ++ [a], tags⟩ = a.vpcId) := by
  refine ⟨?_, ?_, ?_⟩
  · intro scope l g hg hk h
    rw [get_internet_gateways_ok]
    refine List.mem_filterMap.mpr ⟨g, hg, ?_⟩
    rcases h with h | h <;> simp [igwSel, hk, h]
  · intro scope l r hr
    rw [get_internet_gateways_ok] at hr
    obtain ⟨g, hg, hsel⟩ := List.mem_filterMap.mp hr
    unfold igwSel at hsel
    split_ifs at hsel with h1 h2
    · refine ⟨g, hg, by simpa using h1, by simpa using h2, ?_⟩
      injection hsel with h'
      exact h'.symm
  · intro id atts a tags
    simp [igwVpc, List.foldl_append]

/-- Witness for C4: a gateway attached to `vpc-a` then `vpc-b` resolves its
owning VPC to `vpc-b` (last-wins) and, being untagged but attached, is
included under unrestricted scope. -/
theorem igw_inclusion_rule_witness :
    igwVpc ⟨"igw-1", [⟨"vpc-a"⟩] ++ [⟨"vpc-b"⟩], []⟩ = "vpc-b" ∧
    (⟨"igw-1", ""⟩ : IgwOut) ∈
      get_internet_gateways none
        (.ok [⟨"igw-1", [⟨"vpc-a"⟩, ⟨"vpc-b"⟩], []⟩]) :=
  ⟨igw_inclusion_rule.2.2 "igw-1" [⟨"vpc-a"⟩] ⟨"vpc-b"⟩ [],
   igw_inclusion_rule.1 none [⟨"igw-1", [⟨"vpc-a"⟩, ⟨"vpc-b"⟩], []⟩]
     ⟨"igw-1", [⟨"vpc-a"⟩, ⟨"vpc-b"⟩], []⟩
     (by decide) (by decide) (Or.inr (by decide))⟩

/-- Claim C5: a subnet whose final tier is outside
`{public, app, database}`, and an instance whose final tier is outside
`{web, app}`, contribute nothing to any rendered bucket: removing every
such record from the raw inventory leaves the output unchanged. -/
theorem unmatched_tier_dropped :
    (∀ (scope : Option (List String)) (l : List SubnetRec) (s : SubnetRec),
      subnetTier s ∉ (["public", "app", "database"] : List String) →
      get_subnets scope (.ok (l.filter (fun x => x ≠ s))) =
        get_subnets scope (.ok l)) ∧
    (∀ (scope : Option (List String)) (rs : List ReservationRec) (i : InstRec),
      instTier i ∉ (["web", "app"] : List String) →
      get_instances scope
          (.ok (rs.map (fun r => ⟨r.instances.filter (fun x => x ≠ i)⟩))) =
        get_instances scope (.ok rs)) := by
  constructor
  · intro scope l s h
    rw [get_subnets_ok, get_subnets_ok]
    rw [filterMap_filter_ne _ s (subnetSel_none_of_tier scope "public" s
        (fun heq => h (by simp [heq]))),
      filterMap_filter_ne _ s (subnetSel_none_of_tier scope "app" s
        (fun heq => h (by simp [heq]))),
      filterMap_filter_ne _ s (subnetSel_none_of_tier scope "database" s
        (fun heq => h (by simp [heq])))]
  · intro scope rs i h
    rw [get_instances_ok, get_instances_ok]
    rw [filterMap_flat_filter _ i (instSel_none_of_tier scope "web" i
        (fun heq => h (by simp [heq]))) rs,
      filterMap_flat_filter _ i (instSel_none_of_tier scope "app" i
        (fun heq => h (by simp [heq]))) rs]

/-- Witness for C5: a subnet tagged `Tier=internet` and an instance tagged
`Tier=db` contribute nothing — deleting them leaves the buckets unchanged. -/
theorem unmatched_tier_dropped_witness :
    get_subnets none
        (.ok ([⟨"subnet-9", "vpc-1", "10.0.9.0/24", "us-east-1a",
            [⟨"Name", "misc-9"⟩, ⟨"Tier", "internet"⟩]⟩].filter
          (fun x => x ≠ ⟨"subnet-9", "vpc-1", "10.0.9.0/24", "us-east-1a",
            [⟨"Name", "misc-9"⟩, ⟨"Tier", "internet"⟩]⟩))) =
      get_subnets none
        (.ok [⟨"subnet-9", "vpc-1", "10.0.9.0/24", "us-east-1a",
          [⟨"Name", "misc-9"⟩, ⟨"Tier", "internet"⟩]⟩]) ∧
    get_instances none
        (.ok (([⟨[⟨"i-9", "t2.micro", none, "", some "vpc-1",
            [⟨"Tier", "db"⟩]⟩]⟩] : List ReservationRec).map
          (fun r => ⟨r.instances.filter
            (fun x => x ≠ (⟨"i-9", "t2.micro", none, "", some "vpc-1",
              [⟨"Tier", "db"⟩]⟩ : InstRec))⟩))) =
      get_instances none
        (.ok [⟨[⟨"i-9", "t2.micro", none, "", some "vpc-1",
          [⟨"Tier", "db"⟩]⟩]⟩]) :=
  ⟨unmatched_tier_dropped.1 none
      [⟨"subnet-9", "vpc-1", "10.0.9.0/24", "us-east-1a",
        [⟨"Name", "misc-9"⟩, ⟨"Tier", "internet"⟩]⟩]
      ⟨"subnet-9", "vpc-1", "10.0.9.0/24", "us-east-1a",
        [⟨"Name", "misc-9"⟩, ⟨"Tier", "internet"⟩]⟩ (by decide),
   unmatched_tier_dropped.2 none
      [⟨[⟨"i-9", "t2.micro", none, "", some "vpc-1", [⟨"Tier", "db"⟩]⟩]⟩]
      ⟨"i-9", "t2.micro", none, "", some "vpc-1", [⟨"Tier", "db"⟩]⟩ (by decide)⟩

/-- Claim C6: a subnet whose `Name` tag does not resolve contributes nothing
to any tier bucket, whatever its other tags; equivalently, every rendered
subnet record carries a non-empty name. -/
theorem unnamed_subnet_dropped :
    (∀ (scope : Option (List String)) (l : List SubnetRec) (s : SubnetRec),
      subnetName s = "" →
      get_subnets scope (.ok (l.filter (fun x => x ≠ s))) =
        get_subnets scope (.ok l)) ∧
    (∀ (scope : Option (List String)) (l : List SubnetRec) (r : SubnetOut),
      (r ∈ (get_subnets scope (.ok l)).public ∨
        r ∈ (get_subnets scope (.ok l)).app ∨
        r ∈ (get_subnets scope (.ok l)).database) → r.name ≠ "") := by
  constructor
  · intro scope l s h
    rw [get_subnets_ok, get_subnets_ok]
    rw [filterMap_filter_ne _ s (subnetSel_none_of_name scope "public" s h),
      filterMap_filter_ne _ s (subnetSel_none_of_name scope "app" s h),
      filterMap_filter_ne _ s (subnetSel_none_of_name scope "database" s h)]
  · intro scope l r hr
    rw [get_subnets_ok] at hr
    have hex : ∃ t, ∃ s ∈ l, subnetSel scope t s = some r := by
      rcases hr with h | h | h
      · exact ⟨"public", List.mem_filterMap.mp h⟩
      · exact ⟨"app", List.mem_filterMap.mp h⟩
      · exact ⟨"database", List.mem_filterMap.mp h⟩
    obtain ⟨t, s, _, hsel⟩ := hex
    unfold subnetSel at hsel
    split_ifs at hsel with h1 h2 h3
    injection hsel with h'
    rw [← h']
    simpa [mkSubnetOut] using h2

/-- Witness for C6: the unnamed subnet tagged `Tier=app` contributes
nothing, and the rendered record of a named subnet has a non-empty name. -/
theorem unnamed_subnet_dropped_witness :
    get_subnets none
        (.ok ([⟨"subnet-7", "vpc-1", "10.0.7.0/24", "us-east-1a",
            [⟨"Tier", "app"⟩]⟩].filter
          (fun x => x ≠ ⟨"subnet-7", "vpc-1", "10.0.7.0/24", "us-east-1a",
            [⟨"Tier", "app"⟩]⟩))) =
      get_subnets none
        (.ok [⟨"subnet-7", "vpc-1", "10.0.7.0/24", "us-east-1a",
          [⟨"Tier", "app"⟩]⟩]) ∧
    (⟨"subnet-8", "10.0.8.0/24", "us-east-1a", "app-8"⟩ : SubnetOut).name ≠ "" :=
  ⟨unnamed_subnet_dropped.1 none
      [⟨"subnet-7", "vpc-1", "10.0.7.0/24", "us-east-1a", [⟨"Tier", "app"⟩]⟩]
      ⟨"subnet-7", "vpc-1", "10.0.7.0/24", "us-east-1a", [⟨"Tier", "app"⟩]⟩
      (by decide),
   unnamed_subnet_dropped.2 none
      [⟨"subnet-8", "vpc-1", "10.0.8.0/24", "us-east-1a", [⟨"Name", "app-8"⟩]⟩]
      ⟨"subnet-8", "10.0.8.0/24", "us-east-1a", "app-8"⟩
      (Or.inr (Or.inl (by decide)))⟩

/-- Claim C7: an instance with no `Name` tag gets the non-empty placeholder
display name `(unnamed)` and is still classified; with no `Tier` tag either,
its tier resolves to `web` and it appears in the `web` bucket. -/
theorem unnamed_instance_placeholder (scope : Option (List String))
    (rs : List ReservationRec) (res : ReservationRec) (i : InstRec)
    (hres : res ∈ rs) (hi : i ∈ res.instances)
    (hname : ∀ t ∈ i.tags, t.key ≠ "Name") :
    (mkInstOut i).name = "(unnamed)" ∧
    (mkInstOut i).name ≠ "" ∧
    (scopeKeeps scope i.vpcId = true → (∀ t ∈ i.tags, t.key ≠ "Tier") →
      instTier i = "web" ∧ mkInstOut i ∈ (get_instances scope (.ok rs)).web) := by
  have hn : instName i = "" := resolveTag_default i.tags "Name" "" hname
  have hplace : (mkInstOut i).name = "(unnamed)" := by
    simp [mkInstOut, hn]
  refine ⟨hplace, ?_, ?_⟩
  · rw [hplace]
    decide
  · intro hk htier
    have ht : instTier i = "web" := by
      unfold instTier
      rw [resolveTag_default i.tags "Tier" "web" htier, hn]
      decide
    refine ⟨ht, ?_⟩
    rw [get_instances_ok]
    exact List.mem_filterMap.mpr
      ⟨i, List.mem_flatMap.mpr ⟨res, hres, hi⟩, by simp [instSel, hk, ht]⟩

/-- Witness for C7: a tagless instance lands in the `web` bucket under the
placeholder name. -/
theorem unnamed_instance_placeholder_witness :
    (mkInstOut ⟨"i-1", "t2.micro", some "running", "10.0.1.5",
        some "vpc-1", []⟩).name = "(unnamed)" ∧
    mkInstOut ⟨"i-1", "t2.micro", some "running", "10.0.1.5",
        some "vpc-1", []⟩ ∈
      (get_instances none
        (.ok [⟨[⟨"i-1", "t2.micro", some "running", "10.0.1.5",
          some "vpc-1", []⟩]⟩])).web :=
  ⟨(unnamed_instance_placeholder none
      [⟨[⟨"i-1", "t2.micro", some "running", "10.0.1.5", some "vpc-1", []⟩]⟩]
      ⟨[⟨"i-1", "t2.micro", some "running", "10.0.1.5", some "vpc-1", []⟩]⟩
      ⟨"i-1", "t2.micro", some "running", "10.0.1.5", some "vpc-1", []⟩
      (by decide) (by decide) (by decide)).1,
   ((unnamed_instance_placeholder none
      [⟨[⟨"i-1", "t2.micro", some "running", "10.0.1.5", some "vpc-1", []⟩]⟩]
      ⟨[⟨"i-1", "t2.micro", some "running", "10.0.1.5", some "vpc-1", []⟩]⟩
      ⟨"i-1", "t2.micro", some "running", "10.0.1.5", some "vpc-1", []⟩
      (by decide) (by decide) (by decide)).2.2 (by decide) (by decide)).2⟩

/-- Counterexample to claim C8: an inbound rule with the explicit starting
port 0 contributes no entry, so the port list is not the list of all
explicit starting-port values (`["0", "443"]` expected by the claim). -/
theorem sg_port_zero_cex :
    get_security_groups none
        (.ok [⟨"sg-1", some "web", some "vpc-1", [⟨some 0⟩, ⟨some 443⟩]⟩]) =
      [⟨"sg-1", "web", ["443"]⟩] ∧
    (get_security_groups none
        (.ok [⟨"sg-1", some "web", some "vpc-1",
          [⟨some 0⟩, ⟨some 443⟩]⟩])).map SGOut.ports ≠ [["0", "443"]] := by
  decide

/-- Claim C8 (amended): the output holds exactly the in-scope groups whose
`GroupName` is not literally `"default"` (case-sensitive, so `"Default"`
still appears), and a group's port list holds, in provider rule order, the
string forms of those starting ports that are present and non-zero — a rule
with no explicit starting port, or with starting port 0, contributes no
entry. -/
theorem sg_rule_characterization :
    (∀ (scope : Option (List String)) (l : List SGRec) (r : SGOut),
      r ∈ get_security_groups scope (.ok l) →
      ∃ sg ∈ l, scopeKeeps scope sg.vpcId = true ∧
        sg.groupName ≠ some "default" ∧
        r = ⟨sg.groupId,
          (match sg.groupName with | some n => n | none => ""),
          sgPorts sg.ipPermissions⟩) ∧
    (∀ (scope : Option (List String)) (l : List SGRec) (sg : SGRec), sg ∈ l →
      scopeKeeps scope sg.vpcId = true → sg.groupName ≠ some "default" →
      (⟨sg.groupId,
        (match sg.groupName with | some n => n | none => ""),
        sgPorts sg.ipPermissions⟩ : SGOut) ∈
          get_security_groups scope (.ok l)) ∧
    (∀ rules : List RuleRec,
      sgPorts rules = rules.filterMap (fun r =>
        match r.fromPort with
        | some p => if p = 0 then none else some (toString p)
        | none => none)) := by
  refine ⟨?_, ?_, sgPorts_eq⟩
  · intro scope l r hr
    rw [get_security_groups_ok] at hr
    obtain ⟨sg, hsg, hsel⟩ := List.mem_filterMap.mp hr
    unfold sgSel at hsel
    split_ifs at hsel with h1 h2
    injection hsel with h'
    exact ⟨sg, hsg, by simpa using h1, h2, h'.symm⟩
  · intro scope l sg hsg hk hd
    rw [get_security_groups_ok]
    exact List.mem_filterMap.mpr ⟨sg, hsg, by simp [sgSel, hk, hd]⟩

/-- Witness for the amended C8: the group named `Default` appears. -/
theorem sg_rule_characterization_witness :
    (⟨"sg-2", "Default", []⟩ : SGOut) ∈
      get_security_groups none
        (.ok [⟨"sg-2", some "Default", some "vpc-1", []⟩]) :=
  sg_rule_characterization.2.1 none
    [⟨"sg-2", some "Default", some "vpc-1", []⟩]
    ⟨"sg-2", some "Default", some "vpc-1", []⟩
    (by decide) (by decide) (by decide)

/-- Claim C9: every entry of the VPC output comes from a non-default VPC
with a resolvable `Name` tag (so the default VPC and unnamed VPCs never
appear), and the scope set used for filtering is either the unrestricted
sentinel or exactly the ids of those output entries. -/
theorem vpc_filtering_rule :
    (∀ (l : List VpcRec) (r : VpcOut), r ∈ get_vpcs (.ok l) →
      ∃ v ∈ l, v.isDefault = false ∧ resolveTag v.tags "Name" "" ≠ "" ∧
        r = ⟨v.vpcId, v.cidrBlock, resolveTag v.tags "Name" ""⟩) ∧
    (∀ vo : QueryOutcome (List VpcRec),
      scopeOf (get_vpcs vo) = none ∨
        scopeOf (get_vpcs vo) = some ((get_vpcs vo).map (fun v => v.id))) := by
  constructor
  · intro l r hr
    rw [get_vpcs_ok] at hr
    obtain ⟨v, hv, hsel⟩ := List.mem_filterMap.mp hr
    unfold vpcSel at hsel
    split_ifs at hsel with h1 h2
    injection hsel with h'
    exact ⟨v, hv, by simpa using h1, h2, h'.symm⟩
  · intro vo
    unfold scopeOf
    split_ifs with h
    · exact Or.inl rfl
    · exact Or.inr rfl

/-- Witness for C9: the only output entry of a mixed inventory originates
from its named non-default VPC. -/
theorem vpc_filtering_rule_witness :
    ∃ v ∈ ([⟨"vpc-default", "172.31.0.0/16", true, [⟨"Name", "noise"⟩]⟩,
        ⟨"vpc-1", "10.0.0.0/16", false, [⟨"Name", "main"⟩]⟩] : List VpcRec),
      v.isDefault = false ∧ resolveTag v.tags "Name" "" ≠ "" ∧
      (⟨"vpc-1", "10.0.0.0/16", "main"⟩ : VpcOut) =
        ⟨v.vpcId, v.cidrBlock, resolveTag v.tags "Name" ""⟩ :=
  vpc_filtering_rule.1
    [⟨"vpc-default", "172.31.0.0/16", true, [⟨"Name", "noise"⟩]⟩,
     ⟨"vpc-1", "10.0.0.0/16", false, [⟨"Name", "main"⟩]⟩]
    ⟨"vpc-1", "10.0.0.0/16", "main"⟩ (by decide)

/-- Claim C10: under a restricted scope an instance record with no `VpcId`
attribute contributes nothing to either bucket, whatever its tags; under
unrestricted scope the same record is classified and included in the bucket
of its tier. -/
theorem no_vpcid_instance_scoping :
    (∀ (ids : List String) (rs : List ReservationRec) (i : InstRec),
      ids ≠ [] → i.vpcId = none →
      get_instances (some ids)
          (.ok (rs.map (fun r => ⟨r.instances.filter (fun x => x ≠ i)⟩))) =
        get_instances (some ids) (.ok rs)) ∧
    (∀ (rs : List ReservationRec) (res : ReservationRec) (i : InstRec),
      res ∈ rs → i ∈ res.instances → i.vpcId = none →
      (instTier i = "web" → mkInstOut i ∈ (get_instances none (.ok rs)).web) ∧
      (instTier i = "app" → mkInstOut i ∈ (get_instances none (.ok rs)).app)) := by
  constructor
  · intro ids rs i hids hv
    have hkeep : scopeKeeps (some ids) i.vpcId = false := by
      rw [hv]
      cases ids with
      | nil => exact absurd rfl hids
      | cons a as => rfl
    rw [get_instances_ok, get_instances_ok]
    rw [filterMap_flat_filter _ i (instSel_none_of_scope (some ids) "web" i hkeep) rs,
      filterMap_flat_filter _ i (instSel_none_of_scope (some ids) "app" i hkeep) rs]
  · intro rs res i hres hi hv
    constructor <;> intro ht <;>
      · rw [get_instances_ok]
        exact List.mem_filterMap.mpr
          ⟨i, List.mem_flatMap.mpr ⟨res, hres, hi⟩,
           by simp [instSel, scopeKeeps, ht]⟩

/-- Witness for C10: an instance named `app-5` with no `VpcId` attribute is
invisible under the restricted scope `["vpc-1"]` but classified into the
`app` bucket under unrestricted scope. -/
theorem no_vpcid_instance_scoping_witness :
    get_instances (some ["vpc-1"])
        (.ok (([⟨[⟨"i-5", "t2.micro", none, "", none,
            [⟨"Name", "app-5"⟩]⟩]⟩] : List ReservationRec).map
          (fun r => ⟨r.instances.filter
            (fun x => x ≠ (⟨"i-5", "t2.micro", none, "", none,
              [⟨"Name", "app-5"⟩]⟩ : InstRec))⟩))) =
      get_instances (some ["vpc-1"])
        (.ok [⟨[⟨"i-5", "t2.micro", none, "", none, [⟨"Name", "app-5"⟩]⟩]⟩]) ∧
    mkInstOut ⟨"i-5", "t2.micro", none, "", none, [⟨"Name", "app-5"⟩]⟩ ∈
      (get_instances none
        (.ok [⟨[⟨"i-5", "t2.micro", none, "", none,
          [⟨"Name", "app-5"⟩]⟩]⟩])).app :=
  ⟨no_vpcid_instance_scoping.1 ["vpc-1"]
      [⟨[⟨"i-5", "t2.micro", none, "", none, [⟨"Name", "app-5"⟩]⟩]⟩]
      ⟨"i-5", "t2.micro", none, "", none, [⟨"Name", "app-5"⟩]⟩
      (by decide) (by decide),
   (no_vpcid_instance_scoping.2
      [⟨[⟨"i-5", "t2.micro", none, "", none, [⟨"Name", "app-5"⟩]⟩]⟩]
      ⟨[⟨"i-5", "t2.micro", none, "", none, [⟨"Name", "app-5"⟩]⟩]⟩
      ⟨"i-5", "t2.micro", none, "", none, [⟨"Name", "app-5"⟩]⟩
      (by decide) (by decide) (by decide)).2 (by decide)⟩

end Dashboard
